import Mathlib

/-!
Verification of the session-lifecycle manager of the `buble_whats` WhatsApp
HTTP API, in two variants: the Baileys variant (`src/api.js`) and the
whatsapp-web.js "Render Free" variant (`src/unnamed/part_000`).

The embedding is shallow: each Express route handler becomes a pure Lean
function from the in-memory registry (a map from session id to session
record) and the handler's inputs to the updated registry and the HTTP
response; the transport library's event callbacks become a step function on
the session record.  External collaborators (the Baileys socket, the
whatsapp-web.js client, the filesystem, base64 / QR rendering) are modelled
by parameters for their outcomes and by tagged injections for their
encodings, since every verified claim depends only on presence, absence and
ordering of the data they produce.
-/

/-- Inbound message record built by the `messages.upsert` handler of the
Baileys variant (`src/api.js` lines 91-100).  `from` and `type` are Lean
keywords, so the fields are named `sender` and `msgType`. -/
structure BMessage where
  id : String
  sender : String
  pushName : String
  timestamp : Nat
  body : String
  msgType : String
  deriving DecidableEq, Repr

/-- Media attachment of the whatsapp-web.js variant (`part_000` lines 95-99). -/
structure MediaData where
  data : String
  mimetype : String
  filename : String
  deriving DecidableEq, Repr

/-- Inbound message record built by the `message` handler of the
whatsapp-web.js variant (`part_000` lines 82-90), also the shape of the
synthesized example messages of `GET /sessions/:id/messages`.  `from` and
`to` are Lean keywords, so those fields are named `sender` and `recipient`. -/
structure RMessage where
  id : String
  sender : String
  recipient : String
  body : String
  timestamp : Nat
  hasMedia : Bool
  msgType : String
  media : Option MediaData
  deriving DecidableEq, Repr

/-- One append to the bounded message buffer: `messages.push(messageData)`
followed by `if (messages.length > 100) messages = messages.slice(-100)`.
Identical source text in both variants (`api.js` 124-129,
`part_000` 109-113).  `slice(-100)` keeps the last 100 elements, i.e. drops
`length - 100` from the front. -/
def appendMessage {α : Type} (buf : List α) (m : α) : List α :=
  let b := buf ++ [m]
  if b.length > 100 then b.drop (b.length - 100) else b

/-- Folding the append over a whole sequence of inbound message events,
starting from a given buffer. -/
def appendAll {α : Type} (buf : List α) (ms : List α) : List α :=
  ms.foldl appendMessage buf

/-- The last `n` elements of a list, in order. -/
def lastN {α : Type} (n : Nat) (l : List α) : List α :=
  l.drop (l.length - n)

namespace Baileys

/-- Session record stored in the in-memory map `sessions` of `src/api.js`
(created at lines 143-148; the socket is attached at line 152).  The Baileys
socket is an external handle, modelled by its presence. -/
structure Session where
  isAuthenticated : Bool
  qrCode : Option String
  messages : List BMessage
  user : Option String
  hasSock : Bool
  deriving DecidableEq, Repr

/-- The data URL stored by the `connection.update` handler for a QR payload
(`api.js` lines 55-57).  Base64 rendering by `Buffer` is an external
collaborator and is modelled as a tagged injection: the claims depend only
on whether a payload is stored, never on its encoding. -/
def qrToDataURL (qr : String) : String :=
  "data:image/png;base64," ++ qr

/-- Socket events that mutate a live session record in `src/api.js`:
`connection.update` carrying a `qr` field (lines 49-61), carrying
`connection: 'open'` (lines 63-68), carrying a recoverable
`connection: 'close'` (lines 70-75, which only re-invokes
`startWhatsAppSession` and assigns no session field), and `messages.upsert`
(lines 87-130).  An unrecoverable close deletes the session from the
registry and thereby ends the per-session trace. -/
inductive CEvent where
  | qrEv (qr : String)
  | openEv (user : String)
  | closeRecoverableEv
  | messageEv (m : BMessage)
  deriving DecidableEq, Repr

/-- Effect of one socket event on the session record. -/
def stepSession (s : Session) (e : CEvent) : Session :=
  match e with
  | .qrEv qr => { s with qrCode := some (qrToDataURL qr), isAuthenticated := false }
  | .openEv u => { s with isAuthenticated := true, qrCode := none, user := some u }
  | .closeRecoverableEv => s
  | .messageEv m => { s with messages := appendMessage s.messages m }

/-- Fresh session record inserted by `POST /sessions/start` (lines 143-148). -/
def initSession : Session :=
  { isAuthenticated := false, qrCode := none, messages := [], user := none,
    hasSock := false }

/-- Session record after a sequence of socket events from creation. -/
def runSession (evs : List CEvent) : Session :=
  evs.foldl stepSession initSession

/-- The in-memory registry `sessions` (`api.js` line 16): a map from
session id to the session record, `none` for absent ids. -/
abbrev Registry := String → Option Session

def emptyRegistry : Registry := fun _ => none

/-- Assignment `sessions[id] = s`. -/
def setSession (reg : Registry) (id : String) (s : Session) : Registry :=
  fun x => if x = id then some s else reg x

/-- Deletion of the key `id` from the `sessions` object. -/
def removeSession (reg : Registry) (id : String) : Registry :=
  fun x => if x = id then none else reg x

/-- Response of `POST /sessions/start` (`api.js` lines 136-164). -/
inductive StartResult where
  | conflict400
  | ok (sessionId : String)
  | error500 (msg : String)
  deriving DecidableEq, Repr

/-- `POST /sessions/start` (lines 136-164): an existing id is rejected with
the 400 conflict before anything is touched; otherwise a fresh record is
inserted and transport startup is driven; if startup throws
(`startupFails`), the record is deleted again before the 500 response. -/
def startSession (reg : Registry) (sessionId : String) (startupFails : Bool)
    (errMsg : String) : Registry × StartResult :=
  match reg sessionId with
  | some _ => (reg, .conflict400)
  | none =>
    let reg1 := setSession reg sessionId initSession
    if startupFails then (removeSession reg1 sessionId, .error500 errMsg)
    else (setSession reg1 sessionId { initSession with hasSock := true }, .ok sessionId)

/-- Response of `DELETE /sessions/:id` (`api.js` lines 359-382). -/
inductive DestroyResult where
  | notFound404
  | ok
  | error500 (msg : String)
  deriving DecidableEq, Repr

/-- `DELETE /sessions/:id` (lines 359-382).  `sock.end()` is awaited inside
the try block; if it throws (`teardownFails`) control jumps to the catch,
which responds 500 without ever reaching `delete sessions[sessionId]`.
When the session has no socket, or teardown succeeds, the record is removed
and the response is success.  (Cleanup of the on-disk credentials folder
does not touch the registry and is elided.) -/
def destroySession (reg : Registry) (sessionId : String) (teardownFails : Bool)
    (errMsg : String) : Registry × DestroyResult :=
  match reg sessionId with
  | none => (reg, .notFound404)
  | some s =>
    if s.hasSock && teardownFails then (reg, .error500 errMsg)
    else (removeSession reg sessionId, .ok)

/-- Response of `GET /sessions/:id/status` (`api.js` lines 317-331). -/
inductive StatusResult where
  | notFound404
  | status (isAuthenticated : Bool) (qrAvailable : Bool) (messageCount : Nat)
      (user : Option String) (statusStr : String)
  deriving DecidableEq, Repr

/-- `GET /sessions/:id/status` (lines 317-331). -/
def getStatus (reg : Registry) (sessionId : String) : StatusResult :=
  match reg sessionId with
  | none => .notFound404
  | some s =>
    .status s.isAuthenticated s.qrCode.isSome s.messages.length s.user
      (if s.isAuthenticated then "ready" else "waiting_qr")

/-- Response of `GET /sessions/:id/qr` (`api.js` lines 181-220). -/
inductive QrResult where
  | notFound404
  | authenticated (user : Option String)
  | waitingQr (qrCode : String)
  | timeout408
  deriving DecidableEq, Repr

/-- First QR payload observed by the 1-time-unit polling interval: `poll t`
is the session's `qrCode` at tick `t`.  The interval body checks the QR
before incrementing `attempts` and stops once `attempts > 30`, so ticks
1 through 31 are checked. -/
def firstPolledQr (poll : Nat → Option String) : Nat → Nat → Option String
  | 0, _ => none
  | fuel + 1, t =>
    match poll t with
    | some q => some q
    | none => firstPolledQr poll fuel (t + 1)

/-- `GET /sessions/:id/qr` (lines 181-220): 404 on an unknown id; report
authenticated immediately when the flag is set; return a present QR code at
once; otherwise poll once per time-unit, and when no QR has appeared within
the budget respond with the 408 `Timeout aguardando QR Code` error. -/
def getQr (reg : Registry) (sessionId : String) (poll : Nat → Option String) :
    QrResult :=
  match reg sessionId with
  | none => .notFound404
  | some s =>
    if s.isAuthenticated then .authenticated s.user
    else
      match s.qrCode with
      | some q => .waitingQr q
      | none =>
        match firstPolledQr poll 31 1 with
        | some q => .waitingQr q
        | none => .timeout408

/-- Whether the QR endpoint's response is an HTTP error (`res.status(404)`
or `res.status(408)`) rather than a normal 200 JSON result. -/
def QrResult.isErrorResponse : QrResult → Bool
  | .notFound404 => true
  | .timeout408 => true
  | _ => false

/-- Response of `POST /sessions/:id/send-message` (`api.js` lines 223-256). -/
inductive SendResult where
  | notFound404
  | notAuthenticated400
  | missingFields400
  | ok (messageId : String) (timestamp : Nat)
  | error500 (msg : String)
  deriving DecidableEq, Repr

/-- `POST /sessions/:id/send-message` (lines 223-256).  The transport call
`sock.sendMessage` is external: `sendOutcome` is `Except.ok (id, ts)` when
it resolves and `Except.error msg` when it throws.  JS truthiness of the two
required body fields is modelled by non-emptiness. -/
def sendMessage (reg : Registry) (sessionId : String) (number message : String)
    (sendOutcome : Except String (String × Nat)) : SendResult :=
  match reg sessionId with
  | none => .notFound404
  | some s =>
    if !s.isAuthenticated then .notAuthenticated400
    else if number = "" || message = "" then .missingFields400
    else
      match sendOutcome with
      | .ok (mid, ts) => .ok mid ts
      | .error msg => .error500 msg

/-- Response of `GET /sessions/:id/messages` (`api.js` lines 302-314). -/
inductive MessagesResult where
  | notFound404
  | ok (count : Nat) (messages : List BMessage)
  deriving DecidableEq, Repr

/-- `GET /sessions/:id/messages` (lines 302-314): read-only in this variant. -/
def getMessages (reg : Registry) (sessionId : String) : MessagesResult :=
  match reg sessionId with
  | none => .notFound404
  | some s => .ok s.messages.length s.messages

/-- Response of `POST /sessions/:id/restore` (`api.js` lines 334-356). -/
inductive RestoreResult where
  | notFound404
  | ok
  | error500 (msg : String)
  deriving DecidableEq, Repr

/-- `POST /sessions/:id/restore` (lines 334-356): 404 on an unknown id;
otherwise end the old socket (if any) and start a new one, then reset
`isAuthenticated` and `qrCode`.  If either awaited call throws, the catch
responds 500 before any field has been assigned.  The handler never touches
`messages` (or `user`). -/
def restoreSession (reg : Registry) (sessionId : String)
    (teardownFails startupFails : Bool) (errMsg : String) :
    Registry × RestoreResult :=
  match reg sessionId with
  | none => (reg, .notFound404)
  | some s =>
    if (s.hasSock && teardownFails) || startupFails then (reg, .error500 errMsg)
    else
      (setSession reg sessionId
        { s with hasSock := true, isAuthenticated := false, qrCode := none }, .ok)

end Baileys

namespace Render

/-- Session record of the whatsapp-web.js "Render Free" variant
(`src/unnamed/part_000`): the real-client record (lines 53-59, with `qrRaw`
added at line 64) and the simulated fallback record (lines 139-151) share
this shape.  The whatsapp-web.js client is an external handle, modelled by
its presence (`client: null` in the fallback). -/
structure Session where
  hasClient : Bool
  qrCode : Option String
  qrRaw : Option String
  isAuthenticated : Bool
  messages : List RMessage
  connected : Bool
  simulated : Bool
  deriving DecidableEq, Repr

/-- Data URL produced by `qrcode.toDataURL` (external collaborator),
modelled as a tagged injection: the claims depend only on whether a payload
is stored. -/
def qrToDataURL (qr : String) : String :=
  "qrcode-data-url:" ++ qr

/-- Record installed by `startWhatsAppSession` before the client
initializes (`part_000` lines 53-59). -/
def initSession : Session :=
  { hasClient := true, qrCode := none, qrRaw := none, isAuthenticated := false,
    messages := [], connected := false, simulated := false }

/-- Fallback record installed by the catch branch when the transport cannot
be established (`part_000` lines 139-151): a simulated session carrying a
locally synthesized pairing payload `testQR` (line 149). -/
def simulatedSession (testQR : String) : Session :=
  { hasClient := false, qrCode := some (qrToDataURL testQR),
    qrRaw := some testQR, isAuthenticated := false, messages := [],
    connected := false, simulated := true }

/-- Client events mutating a live session record (`part_000` lines 61-128)
plus the 30-time-unit simulated auto-authentication timer (lines 154-160).
Note the `authenticated` handler (lines 74-77) sets the flag WITHOUT
clearing `qrCode`; only the `ready` handler (lines 67-72) clears it, and
the simulated timer (lines 154-160) also leaves `qrCode` in place. -/
inductive CEvent where
  | qrEv (qr : String)
  | readyEv
  | authenticatedEv
  | messageEv (m : RMessage)
  | disconnectedEv
  | simAuthTimerEv
  deriving DecidableEq, Repr

/-- Effect of one client event on the session record. -/
def stepSession (s : Session) (e : CEvent) : Session :=
  match e with
  | .qrEv q => { s with qrCode := some (qrToDataURL q), qrRaw := some q }
  | .readyEv => { s with isAuthenticated := true, connected := true, qrCode := none }
  | .authenticatedEv => { s with isAuthenticated := true }
  | .messageEv m => { s with messages := appendMessage s.messages m }
  | .disconnectedEv => { s with connected := false, isAuthenticated := false }
  | .simAuthTimerEv =>
    if s.simulated then { s with isAuthenticated := true, connected := true }
    else s

/-- Session record after a sequence of client events from a given initial
record. -/
def runSession (init : Session) (evs : List CEvent) : Session :=
  evs.foldl stepSession init

/-- The in-memory registry `sessions` (`part_000` line 18). -/
abbrev Registry := String → Option Session

def emptyRegistry : Registry := fun _ => none

/-- Assignment `sessions[id] = s`. -/
def setSession (reg : Registry) (id : String) (s : Session) : Registry :=
  fun x => if x = id then some s else reg x

/-- Deletion of the key `id` from the `sessions` object. -/
def removeSession (reg : Registry) (id : String) : Registry :=
  fun x => if x = id then none else reg x

/-- Response of `POST /sessions/start` (`part_000` lines 167-196). -/
inductive StartResult where
  | okExisting (sessionId : String)
  | okNew (sessionId : String)
  deriving DecidableEq, Repr

/-- `POST /sessions/start` (lines 167-196): an existing id is answered with
a success response flagged `existing: true` and nothing is touched;
otherwise `startWhatsAppSession` installs either the real-client record or,
when transport startup throws (`initFails`), the simulated fallback record
with payload `testQR`. -/
def startSession (reg : Registry) (sessionId : String) (initFails : Bool)
    (testQR : String) : Registry × StartResult :=
  match reg sessionId with
  | some _ => (reg, .okExisting sessionId)
  | none =>
    if initFails then
      (setSession reg sessionId (simulatedSession testQR), .okNew sessionId)
    else (setSession reg sessionId initSession, .okNew sessionId)

/-- Response of `GET /sessions/:id/qr` (`part_000` lines 213-258). -/
inductive QrResult where
  | notFound404
  | authenticated (simulated : Bool)
  | waitingQr (qrCode : String) (simulated : Bool)
  | generating (simulated : Bool)
  deriving DecidableEq, Repr

/-- First QR payload observed by the 1-time-unit polling interval (`part_000`
lines 237-256, same loop as the Baileys variant): `poll t` is the session's
`qrCode` at tick `t`; ticks 1 through 31 are checked. -/
def firstPolledQr (poll : Nat → Option String) : Nat → Nat → Option String
  | 0, _ => none
  | fuel + 1, t =>
    match poll t with
    | some q => some q
    | none => firstPolledQr poll fuel (t + 1)

/-- `GET /sessions/:id/qr` (lines 213-258): 404 on an unknown id; report
authenticated immediately when the flag is set; return a present QR code at
once; otherwise poll once per time-unit, and when no QR has appeared within
the budget respond with the NORMAL 200 result `status: 'generating'`
(lines 248-255), not an error. -/
def getQr (reg : Registry) (sessionId : String) (poll : Nat → Option String) :
    QrResult :=
  match reg sessionId with
  | none => .notFound404
  | some s =>
    if s.isAuthenticated then .authenticated s.simulated
    else
      match s.qrCode with
      | some q => .waitingQr q s.simulated
      | none =>
        match firstPolledQr poll 31 1 with
        | some q => .waitingQr q s.simulated
        | none => .generating s.simulated

/-- Whether the QR endpoint's response is an HTTP error (`res.status(404)`)
rather than a normal 200 JSON result. -/
def QrResult.isErrorResponse : QrResult → Bool
  | .notFound404 => true
  | _ => false

/-- Response of `POST /sessions/:id/send-message` (`part_000` lines 261-310). -/
inductive SendResult where
  | notFound404
  | missingFields400
  | okSimulated (messageId : String) (timestamp : Nat)
  | notAuthenticated400
  | ok (messageId : String) (timestamp : Nat)
  | error500 (msg : String)
  deriving DecidableEq, Repr

/-- `POST /sessions/:id/send-message` (lines 261-310), checks in source
order: unknown id (404), missing body fields (400), the simulated branch
(lines 274-282, which synthesizes the id `sim_<now>_<rand>` and timestamp
`now` and never consults the transport), the authentication guard (400),
then the real transport call — a missing `client` or a throwing
`client.sendMessage` both land in the catch as a 500. -/
def sendMessage (reg : Registry) (sessionId : String) (number message : String)
    (now : Nat) (rand : String) (sendOutcome : Except String (String × Nat)) :
    SendResult :=
  match reg sessionId with
  | none => .notFound404
  | some s =>
    if number = "" || message = "" then .missingFields400
    else if s.simulated then
      .okSimulated ("sim_" ++ toString now ++ "_" ++ rand) now
    else if !s.isAuthenticated then .notAuthenticated400
    else if !s.hasClient then .error500 "Cliente não disponível"
    else
      match sendOutcome with
      | .ok (mid, ts) => .ok mid ts
      | .error msg => .error500 msg

/-- Response of `GET /sessions/:id/messages` (`part_000` lines 349-386). -/
inductive MessagesResult where
  | notFound404
  | ok (simulated : Bool) (count : Nat) (messages : List RMessage)
  deriving DecidableEq, Repr

/-- First example message injected for an empty simulated session
(`part_000` lines 359-367); `now` models `Date.now()`. -/
def simMessage1 (now : Nat) : RMessage :=
  { id := "sim_1", sender := "5511999999999@c.us", recipient := "me",
    body := "Esta é uma mensagem simulada para testes",
    timestamp := now - 3600000, hasMedia := false, msgType := "chat",
    media := none }

/-- Second example message injected for an empty simulated session
(`part_000` lines 368-376). -/
def simMessage2 (now : Nat) : RMessage :=
  { id := "sim_2", sender := "5511888888888@c.us", recipient := "me",
    body := "No Render Free, as mensagens são simuladas",
    timestamp := now - 1800000, hasMedia := false, msgType := "chat",
    media := none }

/-- `GET /sessions/:id/messages` (lines 349-386): for a simulated session
whose buffer is empty or absent the handler first WRITES the two example
messages into the session's buffer (line 358), then responds with the
updated buffer; for every other session it is read-only. -/
def getMessages (reg : Registry) (sessionId : String) (now : Nat) :
    Registry × MessagesResult :=
  match reg sessionId with
  | none => (reg, .notFound404)
  | some s =>
    if s.simulated && s.messages.isEmpty then
      let s2 := { s with messages := [simMessage1 now, simMessage2 now] }
      (setSession reg sessionId s2, .ok s2.simulated s2.messages.length s2.messages)
    else (reg, .ok s.simulated s.messages.length s.messages)

/-- Response of `GET /sessions/:id/status` (`part_000` lines 389-408). -/
inductive StatusResult where
  | notFound404
  | status (isAuthenticated : Bool) (connected : Bool) (qrAvailable : Bool)
      (messageCount : Nat) (simulated : Bool) (statusStr : String)
  deriving DecidableEq, Repr

/-- `GET /sessions/:id/status` (lines 389-408). -/
def getStatus (reg : Registry) (sessionId : String) : StatusResult :=
  match reg sessionId with
  | none => .notFound404
  | some s =>
    .status s.isAuthenticated s.connected s.qrCode.isSome s.messages.length
      s.simulated
      (if s.isAuthenticated then "authenticated"
       else if s.qrCode.isSome then "waiting_qr" else "connecting")

/-- Response of `DELETE /sessions/:id` (`part_000` lines 446-463). -/
inductive DestroyResult where
  | notFound404
  | ok
  | error500 (msg : String)
  deriving DecidableEq, Repr

/-- `DELETE /sessions/:id` (lines 446-463): `client.destroy()` is awaited
inside the try; a throw jumps to the catch's 500 response before
`delete sessions[sessionId]` runs; otherwise the record is removed. -/
def destroySession (reg : Registry) (sessionId : String) (destroyFails : Bool)
    (errMsg : String) : Registry × DestroyResult :=
  match reg sessionId with
  | none => (reg, .notFound404)
  | some s =>
    if s.hasClient && destroyFails then (reg, .error500 errMsg)
    else (removeSession reg sessionId, .ok)

/-- Response of `POST /sessions/:id/restore` (`part_000` lines 411-443). -/
inductive RestoreResult where
  | notFound404
  | ok (simulated : Bool)
  | error500 (msg : String) (simulated : Bool)
  deriving DecidableEq, Repr

/-- `POST /sessions/:id/restore` (lines 411-443): resets `isAuthenticated`,
`qrCode` and `connected` (lines 420-422), then, when a client exists,
destroys and re-initializes it; a throwing `client.destroy()` lands in the
catch as a 500 after the flags were already reset.  The handler never
touches `messages`. -/
def restoreSession (reg : Registry) (sessionId : String) (destroyFails : Bool)
    (errMsg : String) : Registry × RestoreResult :=
  match reg sessionId with
  | none => (reg, .notFound404)
  | some s =>
    let s2 := { s with isAuthenticated := false, qrCode := none,
                       connected := false }
    if s.hasClient && destroyFails then
      (setSession reg sessionId s2, .error500 errMsg s2.simulated)
    else (setSession reg sessionId s2, .ok s2.simulated)


/-- Message count reported by a status response, `none` for the 404 case. -/
def StatusResult.messageCountOf : StatusResult → Option Nat
  | .notFound404 => none
  | .status _ _ _ mc _ _ => some mc

end Render

theorem appendMessage_length_le {α : Type} (buf : List α) (m : α)
    (h : buf.length ≤ 100) : (appendMessage buf m).length ≤ 100 := by
  unfold appendMessage
  by_cases hc : (buf ++ [m]).length > 100
  · simp only [hc, if_pos, List.length_drop]
    omega
  · simp only [hc, if_neg, not_false_iff]
    simp only [List.length_append, List.length_singleton] at hc ⊢
    omega

theorem lastN_cons_of_le {α : Type} (n : Nat) (x : α) (l : List α)
    (h : n ≤ l.length) : lastN n (x :: l) = lastN n l := by
  unfold lastN
  rw [List.length_cons, show l.length + 1 - n = (l.length - n) + 1 by omega,
    List.drop_succ_cons]

theorem appendAll_eq_lastN {α : Type} (ms : List α) :
    ∀ buf : List α, buf.length ≤ 100 → appendAll buf ms = lastN 100 (buf ++ ms) := by
  induction ms with
  | nil =>
    intro buf h
    simp [appendAll, lastN, Nat.sub_eq_zero_of_le h]
  | cons m ms ih =>
    intro buf h
    have hstep : appendAll buf (m :: ms) = appendAll (appendMessage buf m) ms := rfl
    rw [hstep, ih _ (appendMessage_length_le buf m h)]
    unfold appendMessage
    by_cases hc : (buf ++ [m]).length > 100
    · have hlen : buf.length = 100 := by
        simp only [List.length_append, List.length_singleton] at hc
        omega
      cases buf with
      | nil => simp at hlen
      | cons x rest =>
        have hrest : rest.length = 99 := by
          simp only [List.length_cons] at hlen
          omega
        simp only [hc, if_pos]
        have hd : ((x :: rest) ++ [m]).length - 100 = 1 := by
          simp [hrest]
        rw [hd]
        have hdrop : ((x :: rest) ++ [m]).drop 1 = rest ++ [m] := by
          simp
        rw [hdrop]
        have hrw : (x :: rest) ++ (m :: ms) = x :: ((rest ++ [m]) ++ ms) := by
          simp
        rw [hrw, lastN_cons_of_le]
        simp only [List.length_append, List.length_singleton]
        omega
    · simp only [hc, if_neg, not_false_iff]
      simp

/-- C1: for every sequence of inbound message events appended to a fresh
buffer, the buffer never exceeds 100 entries, and what is retained is
exactly the last 100 appended messages in insertion order (`drop (N - 100)`
of the appended sequence; for N = 101 that starts at the 2nd insertion). -/
theorem messages_bounded_lastHundred {α : Type} (ms : List α) :
    (appendAll ([] : List α) ms).length ≤ 100 ∧
      appendAll ([] : List α) ms = ms.drop (ms.length - 100) := by
  have h := appendAll_eq_lastN ms [] (by simp)
  simp only [List.nil_append] at h
  refine ⟨?_, h⟩
  rw [h]
  unfold lastN
  rw [List.length_drop]
  omega

theorem baileys_qr_inv_foldl (evs : List Baileys.CEvent) :
    ∀ s : Baileys.Session, (s.isAuthenticated = true → s.qrCode = none) →
      (evs.foldl Baileys.stepSession s).isAuthenticated = true →
      (evs.foldl Baileys.stepSession s).qrCode = none := by
  induction evs with
  | nil => intro s h; exact h
  | cons e evs ih =>
    intro s h
    refine ih (Baileys.stepSession s e) ?_
    cases e with
    | qrEv q => intro hA; simp [Baileys.stepSession] at hA
    | openEv u => intro _; simp [Baileys.stepSession]
    | closeRecoverableEv => exact h
    | messageEv m =>
      intro hA
      simp only [Baileys.stepSession] at hA ⊢
      exact h hA

/-- C2 counterexample: in the whatsapp-web.js variant the claim fails.  On a
real session the trace qr-issued then `authenticated` reaches a state whose
authenticated flag is set while the pairing payload is still present (the
`authenticated` handler does not clear `qrCode`); the simulated fallback's
auto-authentication timer does the same. -/
theorem authenticated_with_qr_reachable_counterexample :
    ((Render.runSession Render.initSession
        [Render.CEvent.qrEv "q", Render.CEvent.authenticatedEv]).isAuthenticated
        = true ∧
      (Render.runSession Render.initSession
        [Render.CEvent.qrEv "q", Render.CEvent.authenticatedEv]).qrCode
        ≠ none) ∧
    ((Render.runSession (Render.simulatedSession "t")
        [Render.CEvent.simAuthTimerEv]).isAuthenticated = true ∧
      (Render.runSession (Render.simulatedSession "t")
        [Render.CEvent.simAuthTimerEv]).qrCode ≠ none) := by
  refine ⟨⟨rfl, ?_⟩, ⟨rfl, ?_⟩⟩ <;> decide

/-- C2 amended: in the Baileys variant (`src/api.js`) the invariant does
hold on every reachable path: whenever a session reached by socket events
from creation has its authenticated flag set, its pairing payload is `none`
(the `'open'` transition is the only one setting the flag and it clears the
payload).  In the whatsapp-web.js variant the invariant fails on the
`authenticated`-event path and on the simulated auto-authentication path. -/
theorem baileys_authenticated_implies_no_qr (evs : List Baileys.CEvent)
    (h : (Baileys.runSession evs).isAuthenticated = true) :
    (Baileys.runSession evs).qrCode = none := by
  have := baileys_qr_inv_foldl evs Baileys.initSession (by intro h2; rfl)
  exact this h

theorem baileys_authenticated_implies_no_qr_witness :
    (Baileys.runSession [Baileys.CEvent.openEv "u"]).qrCode = none :=
  baileys_authenticated_implies_no_qr [Baileys.CEvent.openEv "u"] (by decide)

/-- C3 counterexample: in the Baileys variant (`src/api.js` lines 202-219)
an existing, unauthenticated session with no pairing payload whose QR never
appears during the polling budget is answered with the 408
`Timeout aguardando QR Code` HTTP ERROR, not a normal still-generating
result. -/
theorem qr_timeout_408_counterexample :
    Baileys.getQr
        (Baileys.setSession Baileys.emptyRegistry "s1" Baileys.initSession)
        "s1" (fun _ => none) = Baileys.QrResult.timeout408 ∧
      Baileys.QrResult.isErrorResponse Baileys.QrResult.timeout408 = true := by
  refine ⟨?_, rfl⟩
  decide

theorem render_firstPolledQr_none (poll : Nat → Option String)
    (h : ∀ t, poll t = none) :
    ∀ fuel t, Render.firstPolledQr poll fuel t = none := by
  intro fuel
  induction fuel with
  | zero => intro t; rfl
  | succ n ih =>
    intro t
    unfold Render.firstPolledQr
    rw [h t]
    exact ih (t + 1)

/-- C3 amended: the whatsapp-web.js variant (`part_000` lines 235-257) does
return the normal 200 `status: 'generating'` result when the polling budget
is exhausted without a payload; the Baileys variant instead returns the 408
Timeout error. -/
theorem render_qr_timeout_still_generating (reg : Render.Registry)
    (id : String) (s : Render.Session) (poll : Nat → Option String)
    (hs : reg id = some s) (hauth : s.isAuthenticated = false)
    (hqr : s.qrCode = none) (hpoll : ∀ t, poll t = none) :
    Render.getQr reg id poll = Render.QrResult.generating s.simulated ∧
      Render.QrResult.isErrorResponse (Render.getQr reg id poll) = false := by
  have hfp := render_firstPolledQr_none poll hpoll 31 1
  have hmain : Render.getQr reg id poll = Render.QrResult.generating s.simulated := by
    simp [Render.getQr, hs, hauth, hqr, hfp]
  exact ⟨hmain, by rw [hmain]; rfl⟩

theorem render_qr_timeout_still_generating_witness :
    Render.getQr
        (Render.setSession Render.emptyRegistry "s1" Render.initSession)
        "s1" (fun _ => none) = Render.QrResult.generating false ∧
      Render.QrResult.isErrorResponse
        (Render.getQr
          (Render.setSession Render.emptyRegistry "s1" Render.initSession)
          "s1" (fun _ => none)) = false := by
  have h := render_qr_timeout_still_generating
    (Render.setSession Render.emptyRegistry "s1" Render.initSession) "s1"
    Render.initSession (fun _ => none) (by decide) rfl rfl (fun t => rfl)
  simpa [Render.initSession] using h

/-- C4 counterexample: destroying a session whose transport teardown throws
does NOT remove it from the registry — the catch responds 500 before
`delete sessions[sessionId]` runs, so the id still resolves afterwards. -/
theorem destroy_teardown_failure_keeps_session_counterexample :
    (Baileys.destroySession
        (Baileys.setSession Baileys.emptyRegistry "s1"
          { Baileys.initSession with hasSock := true })
        "s1" true "end failed").2 = Baileys.DestroyResult.error500 "end failed" ∧
      (Baileys.destroySession
        (Baileys.setSession Baileys.emptyRegistry "s1"
          { Baileys.initSession with hasSock := true })
        "s1" true "end failed").1 "s1" =
        some { Baileys.initSession with hasSock := true } := by
  exact ⟨by decide, by decide⟩

/-- C4 amended: destroy removes the session from the registry only when the
teardown call does not throw (or there is no transport handle); when
`sock.end()` throws, the handler responds 500 and the session remains
registered unchanged. -/
theorem destroy_removes_session_unless_teardown_throws (reg : Baileys.Registry)
    (id : String) (s : Baileys.Session) (fails : Bool) (msg : String)
    (hs : reg id = some s) :
    (¬(s.hasSock = true ∧ fails = true) →
      Baileys.destroySession reg id fails msg =
          (Baileys.removeSession reg id, Baileys.DestroyResult.ok) ∧
        (Baileys.destroySession reg id fails msg).1 id = none) ∧
    (s.hasSock = true ∧ fails = true →
      Baileys.destroySession reg id fails msg =
        (reg, Baileys.DestroyResult.error500 msg)) := by
  constructor
  · intro hn
    have hcond : (s.hasSock && fails) = false := by
      cases hsock : s.hasSock <;> cases hf : fails <;> simp_all
    constructor
    · simp [Baileys.destroySession, hs, hcond]
    · simp [Baileys.destroySession, hs, hcond, Baileys.removeSession]
  · intro hp
    simp [Baileys.destroySession, hs, hp.1, hp.2]

theorem destroy_removes_session_unless_teardown_throws_witness :
    (Baileys.destroySession
        (Baileys.setSession Baileys.emptyRegistry "s1"
          { Baileys.initSession with hasSock := true })
        "s1" false "e").1 "s1" = none ∧
      Baileys.destroySession
          (Baileys.setSession Baileys.emptyRegistry "s1"
            { Baileys.initSession with hasSock := true })
          "s1" true "e" =
        (Baileys.setSession Baileys.emptyRegistry "s1"
          { Baileys.initSession with hasSock := true },
         Baileys.DestroyResult.error500 "e") :=
  ⟨((destroy_removes_session_unless_teardown_throws
      (Baileys.setSession Baileys.emptyRegistry "s1"
        { Baileys.initSession with hasSock := true })
      "s1" { Baileys.initSession with hasSock := true } false "e"
      (by decide)).1 (by simp)).2,
   (destroy_removes_session_unless_teardown_throws
      (Baileys.setSession Baileys.emptyRegistry "s1"
        { Baileys.initSession with hasSock := true })
      "s1" { Baileys.initSession with hasSock := true } true "e"
      (by decide)).2 ⟨rfl, rfl⟩⟩

/-- C5: creating a session over an existing id is a conflict/no-op in both
variants: the response is the conflict (Baileys 400) or the
`existing: true` success (Render), the registry value returned is the very
same map, and the existing session still resolves with all of its state
unchanged. -/
theorem start_existing_id_is_noop (regB : Baileys.Registry)
    (regR : Render.Registry) (id : String) (sB : Baileys.Session)
    (sR : Render.Session) (failsB initFails : Bool) (msg testQR : String)
    (hB : regB id = some sB) (hR : regR id = some sR) :
    (Baileys.startSession regB id failsB msg =
        (regB, Baileys.StartResult.conflict400) ∧
      (Baileys.startSession regB id failsB msg).1 id = some sB) ∧
    (Render.startSession regR id initFails testQR =
        (regR, Render.StartResult.okExisting id) ∧
      (Render.startSession regR id initFails testQR).1 id = some sR) := by
  constructor
  · constructor
    · simp [Baileys.startSession, hB]
    · simp [Baileys.startSession, hB]
  · constructor
    · simp [Render.startSession, hR]
    · simp [Render.startSession, hR]

theorem start_existing_id_is_noop_witness :
    (Baileys.startSession
        (Baileys.setSession Baileys.emptyRegistry "s1" Baileys.initSession)
        "s1" false "e").1 "s1" = some Baileys.initSession ∧
      (Render.startSession
        (Render.setSession Render.emptyRegistry "s1" Render.initSession)
        "s1" false "t").2 = Render.StartResult.okExisting "s1" :=
  ⟨(start_existing_id_is_noop
      (Baileys.setSession Baileys.emptyRegistry "s1" Baileys.initSession)
      (Render.setSession Render.emptyRegistry "s1" Render.initSession)
      "s1" Baileys.initSession Render.initSession false false "e" "t"
      (by decide) (by decide)).1.2,
   by
    rw [(start_existing_id_is_noop
      (Baileys.setSession Baileys.emptyRegistry "s1" Baileys.initSession)
      (Render.setSession Render.emptyRegistry "s1" Render.initSession)
      "s1" Baileys.initSession Render.initSession false false "e" "t"
      (by decide) (by decide)).2.1]⟩

/-- C6: after a successful destroy of a session id, get-status, the QR
await-pairing endpoint, send-text and get-messages on that id all return
the 404 `Sessão não encontrada` result, because the id no longer resolves
in the registry. -/
theorem destroyed_session_lookups_not_found (reg : Baileys.Registry)
    (id : String) (fails : Bool) (msg : String) (poll : Nat → Option String)
    (number message : String) (out : Except String (String × Nat))
    (h : (Baileys.destroySession reg id fails msg).2 = Baileys.DestroyResult.ok) :
    (Baileys.destroySession reg id fails msg).1 id = none ∧
      Baileys.getStatus (Baileys.destroySession reg id fails msg).1 id =
        Baileys.StatusResult.notFound404 ∧
      Baileys.getQr (Baileys.destroySession reg id fails msg).1 id poll =
        Baileys.QrResult.notFound404 ∧
      Baileys.sendMessage (Baileys.destroySession reg id fails msg).1 id
          number message out = Baileys.SendResult.notFound404 ∧
      Baileys.getMessages (Baileys.destroySession reg id fails msg).1 id =
        Baileys.MessagesResult.notFound404 := by
  have key : (Baileys.destroySession reg id fails msg).1 id = none := by
    unfold Baileys.destroySession at h ⊢
    cases hreg : reg id with
    | none => rw [hreg] at h; simp at h
    | some s =>
      rw [hreg] at h
      by_cases hc : (s.hasSock && fails) = true
      · simp [hc] at h
      · simp [hc, Baileys.removeSession]
  refine ⟨key, ?_, ?_, ?_, ?_⟩ <;>
    simp [Baileys.getStatus, Baileys.getQr, Baileys.sendMessage,
      Baileys.getMessages, key]

theorem destroyed_session_lookups_not_found_witness :
    Baileys.getStatus
        (Baileys.destroySession
          (Baileys.setSession Baileys.emptyRegistry "s1" Baileys.initSession)
          "s1" false "e").1 "s1" = Baileys.StatusResult.notFound404 ∧
      Baileys.sendMessage
        (Baileys.destroySession
          (Baileys.setSession Baileys.emptyRegistry "s1" Baileys.initSession)
          "s1" false "e").1 "s1" "55" "hi" (Except.error "x") =
        Baileys.SendResult.notFound404 :=
  ⟨(destroyed_session_lookups_not_found
      (Baileys.setSession Baileys.emptyRegistry "s1" Baileys.initSession)
      "s1" false "e" (fun _ => none) "55" "hi" (Except.error "x")
      (by decide)).2.1,
   (destroyed_session_lookups_not_found
      (Baileys.setSession Baileys.emptyRegistry "s1" Baileys.initSession)
      "s1" false "e" (fun _ => none) "55" "hi" (Except.error "x")
      (by decide)).2.2.2.1⟩

/-- C7: in the whatsapp-web.js variant, a well-formed send-text on an
existing non-simulated session whose authenticated flag is not set fails
with the 400 `Sessão não autenticada` result and never reaches the
transport, while a well-formed send-text on an existing simulated session
succeeds with the synthesized message id `sim_<now>_<rand>` and timestamp
`now`, whatever the transport outcome would have been. -/
theorem send_text_auth_guard_and_simulated_ack (reg : Render.Registry)
    (id : String) (s : Render.Session) (number message : String) (now : Nat)
    (rand : String) (out : Except String (String × Nat))
    (hs : reg id = some s) (hnum : number ≠ "") (hmsg : message ≠ "") :
    (s.simulated = false → s.isAuthenticated = false →
      Render.sendMessage reg id number message now rand out =
        Render.SendResult.notAuthenticated400) ∧
    (s.simulated = true →
      Render.sendMessage reg id number message now rand out =
        Render.SendResult.okSimulated
          ("sim_" ++ toString now ++ "_" ++ rand) now) := by
  constructor
  · intro hsim hauth
    simp [Render.sendMessage, hs, hnum, hmsg, hsim, hauth]
  · intro hsim
    simp [Render.sendMessage, hs, hnum, hmsg, hsim]

theorem send_text_auth_guard_and_simulated_ack_witness :
    Render.sendMessage
        (Render.setSession Render.emptyRegistry "s1" Render.initSession)
        "s1" "5511" "oi" 9 "r" (Except.ok ("m", 3)) =
      Render.SendResult.notAuthenticated400 ∧
    Render.sendMessage
        (Render.setSession Render.emptyRegistry "s2"
          (Render.simulatedSession "t"))
        "s2" "5511" "oi" 9 "r" (Except.error "down") =
      Render.SendResult.okSimulated ("sim_" ++ toString 9 ++ "_" ++ "r") 9 :=
  ⟨(send_text_auth_guard_and_simulated_ack
      (Render.setSession Render.emptyRegistry "s1" Render.initSession)
      "s1" Render.initSession "5511" "oi" 9 "r" (Except.ok ("m", 3))
      (by decide) (by decide) (by decide)).1 rfl rfl,
   (send_text_auth_guard_and_simulated_ack
      (Render.setSession Render.emptyRegistry "s2"
        (Render.simulatedSession "t"))
      "s2" (Render.simulatedSession "t") "5511" "oi" 9 "r"
      (Except.error "down")
      (by decide) (by decide) (by decide)).2 rfl⟩

/-- C8 counterexample: a successful restore does NOT empty the message
buffer.  Restoring a session holding one message succeeds, resets the
pairing state, and the stored session still holds that message. -/
theorem restore_preserves_messages_counterexample :
    (Baileys.restoreSession
        (Baileys.setSession Baileys.emptyRegistry "s1"
          { Baileys.initSession with
              hasSock := true,
              isAuthenticated := true,
              messages := [{ id := "m1", sender := "a@s.whatsapp.net",
                             pushName := "p", timestamp := 5, body := "oi",
                             msgType := "conversation" }] })
        "s1" false false "e").2 = Baileys.RestoreResult.ok ∧
      ((Baileys.restoreSession
        (Baileys.setSession Baileys.emptyRegistry "s1"
          { Baileys.initSession with
              hasSock := true,
              isAuthenticated := true,
              messages := [{ id := "m1", sender := "a@s.whatsapp.net",
                             pushName := "p", timestamp := 5, body := "oi",
                             msgType := "conversation" }] })
        "s1" false false "e").1 "s1").map Baileys.Session.messages =
        some [{ id := "m1", sender := "a@s.whatsapp.net", pushName := "p",
                timestamp := 5, body := "oi", msgType := "conversation" }] ∧
      ([{ id := "m1", sender := "a@s.whatsapp.net", pushName := "p",
          timestamp := 5, body := "oi",
          msgType := "conversation" }] : List BMessage) ≠ [] := by
  refine ⟨by decide, by decide, by decide⟩

/-- C8 amended: a successful restore resets the pairing state
(authenticated flag false, pairing payload cleared), tears down and
recreates the transport handle, and the session stays registered under the
same id — but its message buffer is preserved unchanged, not emptied (and
`user` is likewise untouched). -/
theorem restore_resets_pairing_not_messages (reg : Baileys.Registry)
    (id : String) (s : Baileys.Session) (tf sf : Bool) (msg : String)
    (hs : reg id = some s) (hc : ((s.hasSock && tf) || sf) = false) :
    Baileys.restoreSession reg id tf sf msg =
      (Baileys.setSession reg id
        { s with hasSock := true, isAuthenticated := false, qrCode := none },
       Baileys.RestoreResult.ok) ∧
      (Baileys.restoreSession reg id tf sf msg).1 id =
        some { s with hasSock := true, isAuthenticated := false,
                      qrCode := none } ∧
      ((Baileys.restoreSession reg id tf sf msg).1 id).map
        Baileys.Session.messages = some s.messages := by
  have hmain : Baileys.restoreSession reg id tf sf msg =
      (Baileys.setSession reg id
        { s with hasSock := true, isAuthenticated := false, qrCode := none },
       Baileys.RestoreResult.ok) := by
    simp [Baileys.restoreSession, hs, hc]
  have hlook : (Baileys.restoreSession reg id tf sf msg).1 id =
      some { s with hasSock := true, isAuthenticated := false,
                    qrCode := none } := by
    rw [hmain]
    simp [Baileys.setSession]
  exact ⟨hmain, hlook, by rw [hlook]; rfl⟩

theorem restore_resets_pairing_not_messages_witness :
    ((Baileys.restoreSession
        (Baileys.setSession Baileys.emptyRegistry "s1"
          { Baileys.initSession with
              hasSock := true,
              isAuthenticated := true,
              qrCode := some "q" })
        "s1" false false "e").1 "s1").map Baileys.Session.messages =
      some [] :=
  ((restore_resets_pairing_not_messages
      (Baileys.setSession Baileys.emptyRegistry "s1"
        { Baileys.initSession with
            hasSock := true,
            isAuthenticated := true,
            qrCode := some "q" })
      "s1"
      { Baileys.initSession with
          hasSock := true,
          isAuthenticated := true,
          qrCode := some "q" }
      false false "e" (by decide) (by decide)).2.2)

/-- C9: in the whatsapp-web.js variant, get-messages on an existing
simulated session with an empty buffer is not read-only: it writes the two
synthesized example messages into the session's buffer and returns them,
and a subsequent get-status on the same id reports messageCount 2 although
no inbound message event ever occurred. -/
theorem simulated_get_messages_injects_examples (reg : Render.Registry)
    (id : String) (s : Render.Session) (now : Nat) (hs : reg id = some s)
    (hsim : s.simulated = true) (hempty : s.messages = []) :
    (Render.getMessages reg id now).2 =
      Render.MessagesResult.ok true 2
        [Render.simMessage1 now, Render.simMessage2 now] ∧
      ((Render.getMessages reg id now).1 id).map Render.Session.messages =
        some [Render.simMessage1 now, Render.simMessage2 now] ∧
      Render.StatusResult.messageCountOf
        (Render.getStatus (Render.getMessages reg id now).1 id) = some 2 := by
  have hcond : (s.simulated && s.messages.isEmpty) = true := by
    simp [hsim, hempty]
  have hmain : Render.getMessages reg id now =
      (Render.setSession reg id
        { s with messages := [Render.simMessage1 now, Render.simMessage2 now] },
       Render.MessagesResult.ok s.simulated 2
         [Render.simMessage1 now, Render.simMessage2 now]) := by
    simp [Render.getMessages, hs, hcond]
  refine ⟨?_, ?_, ?_⟩
  · rw [hmain]
    simp [hsim]
  · rw [hmain]
    simp [Render.setSession]
  · rw [hmain]
    simp [Render.setSession, Render.getStatus,
      Render.StatusResult.messageCountOf]

theorem simulated_get_messages_injects_examples_witness :
    (Render.getMessages
        (Render.setSession Render.emptyRegistry "s1"
          (Render.simulatedSession "t"))
        "s1" 7000000).2 =
      Render.MessagesResult.ok true 2
        [Render.simMessage1 7000000, Render.simMessage2 7000000] ∧
      Render.StatusResult.messageCountOf
        (Render.getStatus
          (Render.getMessages
            (Render.setSession Render.emptyRegistry "s1"
              (Render.simulatedSession "t"))
            "s1" 7000000).1 "s1") = some 2 :=
  ⟨(simulated_get_messages_injects_examples
      (Render.setSession Render.emptyRegistry "s1"
        (Render.simulatedSession "t"))
      "s1" (Render.simulatedSession "t") 7000000
      (by decide) rfl rfl).1,
   (simulated_get_messages_injects_examples
      (Render.setSession Render.emptyRegistry "s1"
        (Render.simulatedSession "t"))
      "s1" (Render.simulatedSession "t") 7000000
      (by decide) rfl rfl).2.2⟩

/-- C10: in the Baileys variant, session creation is atomic with respect to
transport-startup failure: starting a fresh id whose transport startup
throws deletes the partially created record before the 500 response, so the
returned registry equals the original and the id does not resolve. -/
theorem start_transport_failure_atomic (reg : Baileys.Registry) (id : String)
    (msg : String) (h : reg id = none) :
    Baileys.startSession reg id true msg =
        (reg, Baileys.StartResult.error500 msg) ∧
      (Baileys.startSession reg id true msg).1 id = none := by
  have hfst : Baileys.removeSession
      (Baileys.setSession reg id Baileys.initSession) id = reg := by
    funext x
    by_cases hx : x = id
    · subst hx
      simp [Baileys.removeSession, Baileys.setSession, h]
    · simp [Baileys.removeSession, Baileys.setSession, hx]
  have hmain : Baileys.startSession reg id true msg =
      (reg, Baileys.StartResult.error500 msg) := by
    simp [Baileys.startSession, h, hfst]
  exact ⟨hmain, by rw [hmain]; exact h⟩

theorem start_transport_failure_atomic_witness :
    Baileys.startSession Baileys.emptyRegistry "s1" true "boom" =
        (Baileys.emptyRegistry, Baileys.StartResult.error500 "boom") ∧
      (Baileys.startSession Baileys.emptyRegistry "s1" true "boom").1 "s1" =
        none :=
  start_transport_failure_atomic Baileys.emptyRegistry "s1" "boom" rfl
